import Mathlib

/-
  Shallow embedding of the bm-branch-server request pipeline.

  The repository is an Express/MySQL CRUD backend.  We embed the request
  store: the `requests` table and its sibling tables, the snake_case to
  camelCase field mapper, the create / list / patch handlers (both the
  classic `server.js` variant and the serverless `api/index.js` variant),
  the `/api/runs/summaries` aggregators, and the JWT auth middleware.

  Modelling conventions:
  * SQL rows are Lean structures; tables are lists of rows inside a `DB`
    state record.  `INSERT` appends, `UPDATE ... WHERE id = ?` maps over
    the list, `SELECT ... WHERE id = ?` is `List.find?`.
  * JavaScript request bodies are structures of `Option` fields
    (`none` = the key is absent / `undefined`).
  * JS truthiness: a number is falsy exactly when it is 0, a string
    exactly when it is empty, an absent value always.
  * `pickup_date` is modelled by its calendar components, which is all
    the code inspects (DATE, YEAR, MONTH, date comparison, grouping).
  * Decimal prices are modelled as integers; nothing in the code divides.
-/

namespace BmServer

/-- Calendar day of a MySQL date/datetime value.  The code only inspects
the calendar components of `pickup_date` (DATE(), YEAR(), MONTH(), date
comparison and per-day grouping), so a date is a year/month/day triple. -/
structure YMD where
  y : Nat
  m : Nat
  d : Nat
deriving DecidableEq

/-- MySQL date comparison: lexicographic on (year, month, day). -/
def YMD.le (a b : YMD) : Bool :=
  decide (a.y < b.y) ||
    (a.y == b.y && (decide (a.m < b.m) || (a.m == b.m && decide (a.d ≤ b.d))))

/-- A row of the `requests` table, extended with the three name columns
that the routes' LEFT JOINs alias onto the row object
(`branch_name`, `client_name`, `service_type_name`).  A plain
`SELECT * FROM requests` row carries `none` in `service_type_name` and
`client_name` (the table has no such columns, so reading the property of
the JS row object yields `undefined`). -/
structure Row where
  id : Nat
  user_id : Option Nat
  user_name : Option String
  service_type_id : Nat
  service_type_name : Option String
  pickup_location : String
  delivery_location : String
  pickup_date : YMD
  description : Option String
  priority : String
  status : String
  my_status : Int
  branch_id : Nat
  branch_name : Option String
  client_name : Option String
  price : Int
  latitude : Option Int
  longitude : Option Int
  team_id : Option Nat
  staff_id : Option Nat
  created_at : Nat
  updated_at : Nat
deriving DecidableEq

/-- A row of the `branches` table (the columns the embedded routes read). -/
structure Branch where
  id : Nat
  name : String
  client_id : Option Nat
deriving DecidableEq

/-- A row of the `clients` table. -/
structure Client where
  id : Nat
  name : String
deriving DecidableEq

/-- A row of the `service_types` table. -/
structure ServiceType where
  id : Nat
  name : String
deriving DecidableEq

/-- A row of the `teams` table (the columns the embedded routes read). -/
structure Team where
  id : Nat
  crew_commander_id : Option Nat
deriving DecidableEq

/-- The database state seen by a handler.  `nextId` is the AUTO_INCREMENT
counter of `requests`; `now` stands for CURRENT_TIMESTAMP. -/
structure DB where
  requests : List Row
  branches : List Branch
  clients : List Client
  service_types : List ServiceType
  teams : List Team
  nextId : Nat
  now : Nat
deriving DecidableEq

/-- The API-facing record shape produced by `mapRequestFields`: the
camelCase renames of the listed columns, with `team_id` kept under its
snake_case name.  The mapper is an object literal, so only the listed
fields exist in its output; in particular there is no `staff_id` field. -/
structure ApiRecord where
  id : Nat
  userId : Option Nat
  userName : Option String
  serviceTypeId : Nat
  serviceTypeName : Option String
  pickupLocation : String
  deliveryLocation : String
  pickupDate : YMD
  description : Option String
  priority : String
  status : String
  myStatus : Int
  branchId : Nat
  branchName : Option String
  clientName : Option String
  price : Int
  latitude : Option Int
  longitude : Option Int
  team_id : Option Nat
  createdAt : Nat
  updatedAt : Nat
deriving DecidableEq

/-- `mapRequestFields` from `server.js` (identical in `api/index.js` and
the unnamed serverless variant): maps database column names to frontend
field names. -/
def mapRequestFields (request : Row) : ApiRecord :=
  { id := request.id
    userId := request.user_id
    userName := request.user_name
    serviceTypeId := request.service_type_id
    serviceTypeName := request.service_type_name
    pickupLocation := request.pickup_location
    deliveryLocation := request.delivery_location
    pickupDate := request.pickup_date
    description := request.description
    priority := request.priority
    status := request.status
    myStatus := request.my_status
    branchId := request.branch_id
    branchName := request.branch_name
    clientName := request.client_name
    price := request.price
    latitude := request.latitude
    longitude := request.longitude
    team_id := request.team_id
    createdAt := request.created_at
    updatedAt := request.updated_at }

/-- The LEFT JOIN used by the list/read routes: aliases the branch,
client and service-type names onto the request row; a missed join leaves
the aliased column NULL (the aliases shadow any stored column). -/
def joinNames (st : DB) (r : Row) : Row :=
  let b := st.branches.find? (fun x => x.id == r.branch_id)
  let c := b.bind (fun x => x.client_id.bind
    (fun ci => st.clients.find? (fun cl => cl.id == ci)))
  let s := st.service_types.find? (fun x => x.id == r.service_type_id)
  { r with
    branch_name := b.map (fun x => x.name)
    client_name := c.map (fun x => x.name)
    service_type_name := s.map (fun x => x.name) }

/-- JS truthiness of a possibly-absent number: 0, null and undefined are
falsy. -/
def truthyNat : Option Nat → Bool
  | some n => n != 0
  | none => false

/-- JS truthiness of a possibly-absent string: the empty string, null and
undefined are falsy. -/
def truthyStr : Option String → Bool
  | some s => s != ""
  | none => false

/-- JS truthiness of a possibly-absent (signed) number. -/
def truthyInt : Option Int → Bool
  | some i => i != 0
  | none => false

/-- One row of a `/api/runs/summaries` response: the per-day aggregates
selected by the GROUP BY query. -/
structure SummaryRow where
  date : YMD
  totalRuns : Nat
  totalRunsCompleted : Nat
  totalAmount : Int
  totalAmountCompleted : Int
deriving DecidableEq

/-- The JSON body of an HTTP response, restricted to the shapes the
embedded routes produce. -/
inductive RespBody where
  | record (rec : ApiRecord)
  | records (recs : List ApiRecord)
  | summaries (rows : List SummaryRow)
  | message (msg : String)
deriving DecidableEq

/-- An HTTP response: status code plus JSON body. -/
structure Resp where
  status : Nat
  body : RespBody
deriving DecidableEq

/-- The JWT principal attached to `req.user` by `authenticateToken`.
`jwt.verify` returns whatever payload was signed, so every field is
optional except `role`, which the routes compare as a string. -/
structure AuthUser where
  branchId : Option Nat
  name : Option String
  role : String
  clientId : Option Nat
deriving DecidableEq

/-- The JSON body accepted by `POST /api/requests`. -/
structure CreateBody where
  branchId : Option Nat
  branchName : Option String
  serviceTypeId : Option Nat
  pickupLocation : Option String
  deliveryLocation : Option String
  pickupDate : Option YMD
  description : Option String
  priority : Option String
  myStatus : Option Int
  price : Option Int
  latitude : Option Int
  longitude : Option Int
deriving DecidableEq

/-- The effective branch id used by the create handler: the JWT branch id
when truthy, otherwise the body's `branchId`. -/
def effBranchId (user : Option AuthUser) (body : CreateBody) : Option Nat :=
  let fromUser := user.bind (fun u => u.branchId)
  if truthyNat fromUser then fromUser else body.branchId

/-- The effective branch name used by the create handler: the JWT name
when truthy, else the body's `branchName`; when still falsy and a branch
id is available, the name is fetched from the `branches` table. -/
def effBranchName (st : DB) (user : Option AuthUser) (body : CreateBody) :
    Option String :=
  let fromUser := user.bind (fun u => u.name)
  let bn := if truthyStr fromUser then fromUser else body.branchName
  let bid := effBranchId user body
  if !truthyStr bn && truthyNat bid then
    match st.branches.find? (fun b => some b.id == bid) with
    | some b => some b.name
    | none => bn
  else bn

/-- `POST /api/requests` (`server.js`; the serverless variants run the
same body after `authenticateToken`): validates the required fields by
truthiness, checks that `serviceTypeId` and `branchId` reference existing
rows, inserts the request with status `pending`, re-selects the inserted
row by `insertId` and answers 201 with the mapped record. -/
def createRequest (st : DB) (user : Option AuthUser) (body : CreateBody) :
    Resp × DB :=
  let bid := effBranchId user body
  let bn := effBranchName st user body
  if !(truthyNat bid && truthyStr bn && truthyNat body.serviceTypeId &&
       truthyStr body.pickupLocation && truthyStr body.deliveryLocation &&
       body.pickupDate.isSome && truthyInt body.price) then
    ({ status := 400, body := .message "Missing required fields" }, st)
  else if (st.service_types.find? (fun t => some t.id == body.serviceTypeId)).isNone then
    ({ status := 400, body := .message "Invalid service type" }, st)
  else if (st.branches.find? (fun b => some b.id == bid)).isNone then
    ({ status := 400, body := .message "Invalid branch" }, st)
  else
    let newRow : Row :=
      { id := st.nextId
        user_id := none
        user_name := none
        service_type_id := body.serviceTypeId.getD 0
        service_type_name := none
        pickup_location := body.pickupLocation.getD ""
        delivery_location := body.deliveryLocation.getD ""
        pickup_date := body.pickupDate.getD ⟨0, 0, 0⟩
        description := if truthyStr body.description then body.description else none
        priority := if truthyStr body.priority then body.priority.getD "" else "medium"
        status := "pending"
        my_status := body.myStatus.getD 0
        branch_id := bid.getD 0
        branch_name := none
        client_name := none
        price := body.price.getD 0
        latitude := if truthyInt body.latitude then body.latitude else none
        longitude := if truthyInt body.longitude then body.longitude else none
        team_id := none
        staff_id := none
        created_at := st.now
        updated_at := st.now }
    let st' : DB := { st with
      requests := st.requests ++ [newRow]
      nextId := st.nextId + 1 }
    match st'.requests.find? (fun r => r.id == st.nextId) with
    | some r => ({ status := 201, body := .record (mapRequestFields r) }, st')
    | none => ({ status := 500, body := .message "Error creating request" }, st')

/-- The query string accepted by `GET /api/requests`.  Absent or empty
parameters are `none`; a present non-empty numeric parameter is `some`
of its parsed value. -/
structure ListQuery where
  status : Option String
  myStatus : Option Int
  branchId : Option Nat
  pickupDate : Option YMD
deriving DecidableEq

/-- The `status` filter of the list route: pushed only when the parameter
is truthy (`if (status)`). -/
def statusMatch (q : ListQuery) (r : Row) : Bool :=
  if truthyStr q.status then some r.status == q.status else true

/-- The `my_status` filter of the list route: pushed whenever the
parameter is present (`if (myStatus !== undefined)`), a presence check. -/
def myStatusMatch (q : ListQuery) (r : Row) : Bool :=
  match q.myStatus with
  | some v => r.my_status == v
  | none => true

/-- The `branch_id` filter of the list route: pushed only when the
parameter is truthy (`if (branchId)`). -/
def branchMatch (q : ListQuery) (r : Row) : Bool :=
  if truthyNat q.branchId then some r.branch_id == q.branchId else true

/-- The `DATE(pickup_date)` filter of the list route: pushed only when
the parameter is truthy (`if (pickupDate)`). -/
def dateMatch (q : ListQuery) (r : Row) : Bool :=
  match q.pickupDate with
  | some dte => r.pickup_date == dte
  | none => true

/-- Conjunction of the four optional WHERE filters of
`GET /api/requests`. -/
def matchesFilters (q : ListQuery) (r : Row) : Bool :=
  statusMatch q r && (myStatusMatch q r && (branchMatch q r && dateMatch q r))

/-- `GET /api/requests`: LEFT JOIN of the name columns, the optional
filters, `ORDER BY created_at DESC`, then the field mapper. -/
def listRequests (st : DB) (q : ListQuery) : List ApiRecord :=
  let rows := (st.requests.map (joinNames st)).filter (matchesFilters q)
  (rows.insertionSort (fun a b => b.created_at ≤ a.created_at)).map mapRequestFields

/-- The JSON body accepted by `PATCH /api/requests/:id` in `server.js`;
the handler reads exactly these camelCase keys (plus `team_id`). -/
structure ServerPatchBody where
  branchName : Option String
  serviceTypeId : Option Nat
  pickupLocation : Option String
  deliveryLocation : Option String
  pickupDate : Option YMD
  description : Option String
  priority : Option String
  status : Option String
  myStatus : Option Int
  team_id : Option Nat
  latitude : Option Int
  longitude : Option Int
deriving DecidableEq

/-- The `dbUpdates` object built by the patch handlers after dropping
undefined values: for each updatable column, `some v` means the SET
clause assigns `v`. -/
structure DbUpdates where
  branch_name : Option String
  service_type_id : Option Nat
  pickup_location : Option String
  delivery_location : Option String
  pickup_date : Option YMD
  description : Option String
  priority : Option String
  status : Option String
  my_status : Option Int
  team_id : Option Nat
  latitude : Option Int
  longitude : Option Int
  staff_id : Option Nat
deriving DecidableEq

/-- Whether `dbUpdates` has no keys left after undefined values are
removed (`Object.keys(dbUpdates).length === 0`). -/
def DbUpdates.isEmpty (u : DbUpdates) : Bool :=
  u.branch_name.isNone && u.service_type_id.isNone && u.pickup_location.isNone &&
  u.delivery_location.isNone && u.pickup_date.isNone && u.description.isNone &&
  u.priority.isNone && u.status.isNone && u.my_status.isNone &&
  u.team_id.isNone && u.latitude.isNone && u.longitude.isNone &&
  u.staff_id.isNone

/-- The `dbUpdates` map built by the `server.js` patch handler: the
camelCase body keys renamed to column names, plus the side effect that a
truthy `team_id` whose team has a truthy `crew_commander_id` also sets
`staff_id` to that commander. -/
def serverDbUpdates (st : DB) (body : ServerPatchBody) : DbUpdates :=
  let staffId : Option Nat :=
    if truthyNat body.team_id then
      match st.teams.find? (fun t => some t.id == body.team_id) with
      | some t => if truthyNat t.crew_commander_id then t.crew_commander_id else none
      | none => none
    else none
  { branch_name := body.branchName
    service_type_id := body.serviceTypeId
    pickup_location := body.pickupLocation
    delivery_location := body.deliveryLocation
    pickup_date := body.pickupDate
    description := body.description
    priority := body.priority
    status := body.status
    my_status := body.myStatus
    team_id := body.team_id
    latitude := body.latitude
    longitude := body.longitude
    staff_id := staffId }

/-- Applies a SET clause to one row: each present update overwrites the
corresponding column, everything else is untouched. -/
def applyUpdates (u : DbUpdates) (r : Row) : Row :=
  { r with
    branch_name := match u.branch_name with | some v => some v | none => r.branch_name
    service_type_id := u.service_type_id.getD r.service_type_id
    pickup_location := u.pickup_location.getD r.pickup_location
    delivery_location := u.delivery_location.getD r.delivery_location
    pickup_date := u.pickup_date.getD r.pickup_date
    description := match u.description with | some v => some v | none => r.description
    priority := u.priority.getD r.priority
    status := u.status.getD r.status
    my_status := u.my_status.getD r.my_status
    team_id := match u.team_id with | some v => some v | none => r.team_id
    latitude := match u.latitude with | some v => some v | none => r.latitude
    longitude := match u.longitude with | some v => some v | none => r.longitude
    staff_id := match u.staff_id with | some v => some v | none => r.staff_id }

/-- `PATCH /api/requests/:id` (`server.js`): builds `dbUpdates` (with the
team-commander side effect), runs the UPDATE, re-selects the row by id
and answers 404 when the re-select finds nothing.  When every value is
undefined the generated SQL has an empty SET clause, which MySQL rejects;
the handler's catch block turns that thrown error into a 500. -/
def patchRequest (st : DB) (rid : Nat) (body : ServerPatchBody) : Resp × DB :=
  let u := serverDbUpdates st body
  if u.isEmpty then
    ({ status := 500, body := .message "Internal server error" }, st)
  else
    let st' : DB := { st with
      requests := st.requests.map (fun r => if r.id == rid then applyUpdates u r else r) }
    match st'.requests.find? (fun r => r.id == rid) with
    | none => ({ status := 404, body := .message "Request not found" }, st')
    | some r => ({ status := 200, body := .record (mapRequestFields r) }, st')

/-- The JSON body accepted by `PATCH /api/requests/:id` in
`api/index.js`; the handler copies exactly the allow-listed snake_case
keys `status, my_status, priority, description, team_id, staff_id`. -/
structure ApiPatchBody where
  status : Option String
  my_status : Option Int
  priority : Option String
  description : Option String
  team_id : Option Nat
  staff_id : Option Nat
deriving DecidableEq

/-- The `dbUpdates` map of the serverless patch handler: just the
defined allow-listed fields, with no derived columns. -/
def apiDbUpdates (body : ApiPatchBody) : DbUpdates :=
  { branch_name := none
    service_type_id := none
    pickup_location := none
    delivery_location := none
    pickup_date := none
    description := body.description
    priority := body.priority
    status := body.status
    my_status := body.my_status
    team_id := body.team_id
    latitude := none
    longitude := none
    staff_id := body.staff_id }

/-- `PATCH /api/requests/:id` (`api/index.js`): answers 400 before
touching the table when no allow-listed field is defined; otherwise runs
the UPDATE, re-selects the row with the name joins and answers 404 when
the re-select finds nothing. -/
def apiPatchRequest (st : DB) (rid : Nat) (body : ApiPatchBody) : Resp × DB :=
  let u := apiDbUpdates body
  if u.isEmpty then
    ({ status := 400, body := .message "No valid fields to update" }, st)
  else
    let st' : DB := { st with
      requests := st.requests.map (fun r => if r.id == rid then applyUpdates u r else r) }
    match st'.requests.find? (fun r => r.id == rid) with
    | none => ({ status := 404, body := .message "Request not found" }, st')
    | some r => ({ status := 200, body := .record (mapRequestFields (joinNames st' r)) }, st')

/-- Helper of `jsSplitSpace`: splits a character list at each space,
keeping empty components, with the current component accumulated in
reverse. -/
def splitAux : List Char → List Char → List String
  | [], cur => [String.mk cur.reverse]
  | c :: cs, cur =>
    if c = ' ' then String.mk cur.reverse :: splitAux cs []
    else splitAux cs (c :: cur)

/-- JavaScript `s.split(' ')`: the components between single spaces,
empty components kept. -/
def jsSplitSpace (s : String) : List String := splitAux s.data []

/-- Token extraction of `authenticateToken`:
`authHeader && authHeader.split(' ')[1]` — a falsy header short-circuits,
otherwise the token is the second space-separated component, which may be
absent. -/
def extractToken (authHeader : Option String) : Option String :=
  match authHeader with
  | none => none
  | some h => if h == "" then none else (jsSplitSpace h).get? 1

/-- The `authenticateToken` middleware of the serverless variants:
missing (falsy) token answers 401, a token rejected by `jwt.verify`
answers 403, and only a verified token reaches `next()` with the decoded
principal.  `verify` abstracts `jwt.verify` against the configured
secret. -/
def authenticateToken (verify : String → Option AuthUser)
    (authHeader : Option String) : Except Resp AuthUser :=
  match extractToken authHeader with
  | none => .error { status := 401, body := .message "Access token required" }
  | some tok =>
    if tok == "" then
      .error { status := 401, body := .message "Access token required" }
    else
      match verify tok with
      | none => .error { status := 403, body := .message "Invalid or expired token" }
      | some u => .ok u

/-- A route guarded by `authenticateToken`: the handler body runs only
when the middleware calls `next()`. -/
def guardedRoute (verify : String → Option AuthUser) (authHeader : Option String)
    (handler : AuthUser → Resp) : Resp :=
  match authenticateToken verify authHeader with
  | .error e => e
  | .ok u => handler u

/-- The query string accepted by the `/api/runs/summaries` routes.
Absent or empty parameters are `none`; a present non-empty numeric
parameter is `some` of its parsed value. -/
structure SummariesQuery where
  year : Option Nat
  month : Option Nat
  clientId : Option Nat
  branchId : Option Nat
deriving DecidableEq

/-- The WHERE clause of `GET /api/runs/summaries` in `server.js`: the
fixed `my_status = 3` base filter plus the optional YEAR, MONTH,
`b.client_id` (via the branch join; NULL never matches) and `branch_id`
filters, each pushed only when the parameter is truthy. -/
def serverSumMatch (st : DB) (q : SummariesQuery) (r : Row) : Bool :=
  r.my_status == (3 : Int) &&
  (if truthyNat q.year then some r.pickup_date.y == q.year else true) &&
  (if truthyNat q.month then some r.pickup_date.m == q.month else true) &&
  (if truthyNat q.clientId then
      (match st.branches.find? (fun b => b.id == r.branch_id) with
       | some b => b.client_id == q.clientId
       | none => false)
    else true) &&
  (if truthyNat q.branchId then some r.branch_id == q.branchId else true)

/-- The WHERE clause of `GET /api/runs/summaries` in `api/index.js`:
a 30-day window (`cutoff` stands for `DATE_SUB(CURDATE(), INTERVAL 30
DAY)`), the caller's own branch whenever the caller is not an admin and
carries a truthy branch id, the optional YEAR/MONTH/client filters, and
the `branchId` query parameter only for admin callers. -/
def apiSumMatch (st : DB) (cutoff : YMD) (u : AuthUser) (q : SummariesQuery)
    (r : Row) : Bool :=
  YMD.le cutoff r.pickup_date &&
  (if u.role != "admin" && truthyNat u.branchId then
      some r.branch_id == u.branchId
    else true) &&
  (if truthyNat q.year then some r.pickup_date.y == q.year else true) &&
  (if truthyNat q.month then some r.pickup_date.m == q.month else true) &&
  (if truthyNat q.clientId then
      (match st.branches.find? (fun b => b.id == r.branch_id) with
       | some b => b.client_id == q.clientId
       | none => false)
    else true) &&
  (if truthyNat q.branchId && u.role == "admin" then
      some r.branch_id == q.branchId
    else true)

/-- Folds one more matching row into the aggregate entry of its day:
COUNT(*), COUNT of completed, SUM(price), SUM of completed price. -/
def bumpEntry (r : Row) (e : SummaryRow) : SummaryRow :=
  { e with
    totalRuns := e.totalRuns + 1
    totalRunsCompleted := e.totalRunsCompleted + (if r.status == "completed" then 1 else 0)
    totalAmount := e.totalAmount + r.price
    totalAmountCompleted :=
      e.totalAmountCompleted + (if r.status == "completed" then r.price else 0) }

/-- The aggregate entry opened by the first matching row of a day. -/
def initEntry (r : Row) : SummaryRow :=
  { date := r.pickup_date
    totalRuns := 1
    totalRunsCompleted := if r.status == "completed" then 1 else 0
    totalAmount := r.price
    totalAmountCompleted := if r.status == "completed" then r.price else 0 }

/-- Streams one row into the per-day aggregation table: bump the entry of
the row's day if it exists, otherwise open a new one. -/
def insertAgg : List SummaryRow → Row → List SummaryRow
  | [], r => [initEntry r]
  | e :: es, r =>
    if e.date == r.pickup_date then bumpEntry r e :: es else e :: insertAgg es r

/-- `GROUP BY DATE(pickup_date)` with the four aggregate columns, as a
stream over the matching rows. -/
def groupByDay (rows : List Row) : List SummaryRow :=
  rows.foldl insertAgg []

/-- `ORDER BY date DESC` on the aggregated rows. -/
def sortByDateDesc (l : List SummaryRow) : List SummaryRow :=
  l.insertionSort (fun a b => YMD.le b.date a.date = true)

/-- `GET /api/runs/summaries` (`server.js`): filter, group by calendar
day, order by date descending. -/
def runsSummaries (st : DB) (q : SummariesQuery) : List SummaryRow :=
  sortByDateDesc (groupByDay (st.requests.filter (serverSumMatch st q)))

/-- `GET /api/runs/summaries` (`api/index.js`): same aggregation over the
role-scoped WHERE clause. -/
def apiRunsSummaries (st : DB) (cutoff : YMD) (u : AuthUser)
    (q : SummariesQuery) : List SummaryRow :=
  sortByDateDesc (groupByDay (st.requests.filter (apiSumMatch st cutoff u q)))

/-- The matching rows whose `pickup_date` falls on day `d`. -/
def dayRows (d : YMD) (rows : List Row) : List Row :=
  rows.filter (fun r => r.pickup_date == d)

/-- The aggregate entry a day `d` should receive from a list of matching
rows: COUNT(*), COUNT completed, SUM(price), SUM of completed price over
the rows of that day. -/
def specEntry (d : YMD) (rows : List Row) : SummaryRow :=
  { date := d
    totalRuns := (dayRows d rows).length
    totalRunsCompleted :=
      ((dayRows d rows).filter (fun r => r.status == "completed")).length
    totalAmount := ((dayRows d rows).map (fun r => r.price)).sum
    totalAmountCompleted :=
      (((dayRows d rows).filter (fun r => r.status == "completed")).map
        (fun r => r.price)).sum }

/-- A concrete completed request used by witnesses and counterexamples. -/
def rowA : Row :=
  { id := 1, user_id := none, user_name := none, service_type_id := 2,
    service_type_name := none, pickup_location := "A", delivery_location := "B",
    pickup_date := ⟨2025, 1, 1⟩, description := none, priority := "medium",
    status := "completed", my_status := 3, branch_id := 1, branch_name := none,
    client_name := none, price := 100, latitude := none, longitude := none,
    team_id := none, staff_id := none, created_at := 10, updated_at := 10 }

/-- A second request on the same day as `rowA`, not completed. -/
def rowB : Row :=
  { rowA with id := 2, price := 200, status := "pending", created_at := 11 }

/-- A completed request on the following day. -/
def rowC : Row :=
  { rowA with id := 3, price := 50, pickup_date := ⟨2025, 1, 2⟩, created_at := 12 }

/-- A concrete database used by witnesses and counterexamples: the §8
fixture of the specification (two requests on day one, one of them
completed, prices 100 and 200; one completed request of price 50 on day
two). -/
def stW : DB :=
  { requests := [rowA, rowB, rowC],
    branches := [{ id := 1, name := "HQ", client_id := some 1 }],
    clients := [{ id := 1, name := "ACME" }],
    service_types := [{ id := 2, name := "CIT" }],
    teams := [{ id := 4, crew_commander_id := some 7 }],
    nextId := 9, now := 99 }

/-- The serverless patch body with none of the allow-listed fields. -/
def emptyApiPatch : ApiPatchBody :=
  { status := none, my_status := none, priority := none, description := none,
    team_id := none, staff_id := none }

/-- A valid create body against `stW`. -/
def bodyW : CreateBody :=
  { branchId := some 1, branchName := some "HQ", serviceTypeId := some 2,
    pickupLocation := some "X", deliveryLocation := some "Y",
    pickupDate := some ⟨2025, 2, 3⟩, description := none, priority := none,
    myStatus := none, price := some 77, latitude := none, longitude := none }

/-- A patch body assigning team 4 (and a status) without naming a staff
id. -/
def bodyT : ServerPatchBody :=
  { branchName := none, serviceTypeId := none, pickupLocation := none,
    deliveryLocation := none, pickupDate := none, description := none,
    priority := none, status := some "assigned", myStatus := none,
    team_id := some 4, latitude := none, longitude := none }

/-- A request with `my_status = 0`. -/
def rowZ : Row := { rowA with my_status := 0 }

/-- A database whose only request has `my_status = 0`. -/
def stZ : DB := { stW with requests := [rowZ] }

/-- The non-admin principal issued for branch 1 by the login route. -/
def uW : AuthUser :=
  { branchId := some 1, name := some "HQ", role := "branch", clientId := some 1 }

/-- The summaries query with every filter absent. -/
def qW4 : SummariesQuery := ⟨none, none, none, none⟩

/-- The aggregate the fixture's first day should produce: two runs, one
completed, 300 total, 100 of it completed. -/
def e1 : SummaryRow := ⟨⟨2025, 1, 1⟩, 2, 1, 300, 100⟩

/-- An UPDATE whose WHERE clause matches no row leaves the table as it
was. -/
theorem map_ite_id_of_no_match {l : List Row} {rid : Nat} (f : Row → Row)
    (h : ∀ r ∈ l, r.id ≠ rid) :
    l.map (fun r => if r.id == rid then f r else r) = l := by
  induction l with
  | nil => rfl
  | cons a t ih =>
    have ha : ¬ ((a.id == rid) = true) := by
      simp [h a (List.mem_cons_self a t)]
    rw [List.map_cons, if_neg ha, ih (fun r hr => h r (List.mem_cons_of_mem a hr))]

/-- `find?` skips a prefix on which the predicate fails. -/
theorem find?_append_of_none {α : Type} {p : α → Bool} {l1 l2 : List α}
    (h : ∀ a ∈ l1, p a = false) : (l1 ++ l2).find? p = l2.find? p := by
  induction l1 with
  | nil => rfl
  | cons a t ih =>
    simp [List.find?, h a (List.mem_cons_self a t),
      ih (fun x hx => h x (List.mem_cons_of_mem a hx))]

/-- Claim C8 (amended): the field mapper renames the listed snake_case
columns to camelCase, keeps `team_id` under its snake_case name, passes
the remaining listed columns through unchanged, and drops every column
outside its literal — in particular `staff_id` does not reach the API
record. -/
theorem mapRequestFields_spec (r : Row) :
    (mapRequestFields r).id = r.id ∧
    (mapRequestFields r).userId = r.user_id ∧
    (mapRequestFields r).userName = r.user_name ∧
    (mapRequestFields r).serviceTypeId = r.service_type_id ∧
    (mapRequestFields r).serviceTypeName = r.service_type_name ∧
    (mapRequestFields r).pickupLocation = r.pickup_location ∧
    (mapRequestFields r).deliveryLocation = r.delivery_location ∧
    (mapRequestFields r).pickupDate = r.pickup_date ∧
    (mapRequestFields r).description = r.description ∧
    (mapRequestFields r).priority = r.priority ∧
    (mapRequestFields r).status = r.status ∧
    (mapRequestFields r).myStatus = r.my_status ∧
    (mapRequestFields r).branchId = r.branch_id ∧
    (mapRequestFields r).branchName = r.branch_name ∧
    (mapRequestFields r).clientName = r.client_name ∧
    (mapRequestFields r).price = r.price ∧
    (mapRequestFields r).latitude = r.latitude ∧
    (mapRequestFields r).longitude = r.longitude ∧
    (mapRequestFields r).team_id = r.team_id ∧
    (mapRequestFields r).createdAt = r.created_at ∧
    (mapRequestFields r).updatedAt = r.updated_at ∧
    (∀ s : Option Nat, mapRequestFields { r with staff_id := s } = mapRequestFields r) :=
  ⟨rfl, rfl, rfl, rfl, rfl, rfl, rfl, rfl, rfl, rfl, rfl, rfl, rfl, rfl, rfl,
    rfl, rfl, rfl, rfl, rfl, rfl, fun _ => rfl⟩

/-- Claim C8 (counterexample): `staff_id` is not passed through — two
rows that differ only in `staff_id` map to the same API record. -/
theorem mapRequestFields_drops_staff_id :
    mapRequestFields { rowA with staff_id := some 7 } =
      mapRequestFields { rowA with staff_id := some 8 } ∧
    ({ rowA with staff_id := some 7 } : Row).staff_id ≠
      ({ rowA with staff_id := some 8 } : Row).staff_id :=
  ⟨rfl, by decide⟩

/-- Claim C10: the serverless patch handler answers 400 with message
`No valid fields to update` and leaves the state untouched when the body
defines none of the allow-listed fields. -/
theorem apiPatch_no_valid_fields (st : DB) (rid : Nat) :
    apiPatchRequest st rid emptyApiPatch =
      ({ status := 400, body := .message "No valid fields to update" }, st) := rfl

/-- Claim C6 (counterexample): patching a non-existent id with a body
holding no updatable field answers 400, not 404, in the serverless
variant. -/
theorem apiPatch_missing_id_empty_body_not_404 :
    (∀ r ∈ stW.requests, r.id ≠ 77) ∧
    (apiPatchRequest stW 77 emptyApiPatch).1.status = 400 ∧
    (apiPatchRequest stW 77 emptyApiPatch).1.status ≠ 404 := by
  decide

/-- Claim C6 (amended): when the body supplies at least one updatable
field and no stored request carries the patched id, both patch handlers
answer 404 and mutate no stored request. -/
theorem patch_missing_id_404 (st : DB) (rid : Nat) (bodyS : ServerPatchBody)
    (bodyA : ApiPatchBody)
    (hno : ∀ r ∈ st.requests, r.id ≠ rid)
    (hS : (serverDbUpdates st bodyS).isEmpty = false)
    (hA : (apiDbUpdates bodyA).isEmpty = false) :
    ((patchRequest st rid bodyS).1.status = 404 ∧
      (patchRequest st rid bodyS).2.requests = st.requests) ∧
    ((apiPatchRequest st rid bodyA).1.status = 404 ∧
      (apiPatchRequest st rid bodyA).2.requests = st.requests) := by
  have hfind : st.requests.find? (fun r => r.id == rid) = none :=
    List.find?_eq_none.mpr (fun x hx => by simpa using hno x hx)
  have hmapS := map_ite_id_of_no_match (applyUpdates (serverDbUpdates st bodyS)) hno
  have hmapA := map_ite_id_of_no_match (applyUpdates (apiDbUpdates bodyA)) hno
  refine ⟨⟨?_, ?_⟩, ?_, ?_⟩
  · simp only [patchRequest, hS, Bool.false_eq_true, if_false, hmapS, hfind]
  · simp only [patchRequest, hS, Bool.false_eq_true, if_false, hmapS, hfind]
  · simp only [apiPatchRequest, hA, Bool.false_eq_true, if_false, hmapA, hfind]
  · simp only [apiPatchRequest, hA, Bool.false_eq_true, if_false, hmapA, hfind]

/-- Claim C6 (witness for the amended theorem): a concrete miss. -/
theorem patch_missing_id_404_witness :
    ((patchRequest stW 77
        { branchName := none, serviceTypeId := none, pickupLocation := none,
          deliveryLocation := none, pickupDate := none, description := none,
          priority := none, status := some "assigned", myStatus := none,
          team_id := none, latitude := none, longitude := none }).1.status = 404 ∧
      (patchRequest stW 77
        { branchName := none, serviceTypeId := none, pickupLocation := none,
          deliveryLocation := none, pickupDate := none, description := none,
          priority := none, status := some "assigned", myStatus := none,
          team_id := none, latitude := none, longitude := none }).2.requests = stW.requests) ∧
    ((apiPatchRequest stW 77 { emptyApiPatch with status := some "assigned" }).1.status = 404 ∧
      (apiPatchRequest stW 77 { emptyApiPatch with status := some "assigned" }).2.requests = stW.requests) :=
  patch_missing_id_404 stW 77 _ _ (by decide) (by decide) (by decide)

/-- Claim C9: on a guarded route, a missing (falsy) bearer token answers
401 and a token rejected by the verifier answers 403; in both cases the
handler body never runs — the response is the middleware's, whatever the
handler would have produced. -/
theorem authenticateToken_gate (verify : String → Option AuthUser)
    (authHeader : Option String) :
    ((extractToken authHeader = none ∨ extractToken authHeader = some "") →
      ∀ handler : AuthUser → Resp,
        guardedRoute verify authHeader handler =
          { status := 401, body := .message "Access token required" }) ∧
    (∀ tok, extractToken authHeader = some tok → tok ≠ "" → verify tok = none →
      ∀ handler : AuthUser → Resp,
        guardedRoute verify authHeader handler =
          { status := 403, body := .message "Invalid or expired token" }) := by
  constructor
  · rintro (h | h) handler <;> simp [guardedRoute, authenticateToken, h]
  · intro tok htok hne hv handler
    simp [guardedRoute, authenticateToken, htok, hne, hv]

/-- Claim C9 (witness): a concrete missing header and a concrete rejected
token. -/
theorem authenticateToken_gate_witness :
    guardedRoute (fun _ => none) none
        (fun _ => { status := 200, body := .message "ok" }) =
      { status := 401, body := .message "Access token required" } ∧
    guardedRoute (fun _ => none) (some "Bearer sometok")
        (fun _ => { status := 200, body := .message "ok" }) =
      { status := 403, body := .message "Invalid or expired token" } :=
  ⟨(authenticateToken_gate (fun _ => none) none).1 (Or.inl rfl) _,
    (authenticateToken_gate (fun _ => none) (some "Bearer sometok")).2
      "sometok" (by decide) (by decide) rfl _⟩

/-- With a non-empty SET clause, the `server.js` patch handler's final
state holds the mapped-over request list. -/
theorem patchRequest_state (st : DB) (rid : Nat) (body : ServerPatchBody)
    (h : (serverDbUpdates st body).isEmpty = false) :
    (patchRequest st rid body).2.requests =
      st.requests.map
        (fun r => if r.id == rid then applyUpdates (serverDbUpdates st body) r else r) := by
  simp only [patchRequest, h, Bool.false_eq_true, if_false]
  split <;> rfl

/-- Claim C2: a patch whose body carries a (truthy) `team_id` of an
existing team with a (truthy) commander also sets `staff_id` to that
commander on every row the UPDATE touches, although the body named no
`staff_id`. -/
theorem patchRequest_team_sets_staff (st : DB) (rid : Nat)
    (body : ServerPatchBody) (t s : Nat) (tm : Team)
    (hbody : body.team_id = some t) (ht : t ≠ 0)
    (hfind : st.teams.find? (fun x => some x.id == some t) = some tm)
    (hcc : tm.crew_commander_id = some s) (hs : s ≠ 0) :
    ∀ r ∈ (patchRequest st rid body).2.requests, r.id = rid → r.staff_id = some s := by
  have ht' : (t != 0) = true := by simp [ht]
  have hs' : (s != 0) = true := by simp [hs]
  have hstaff : (serverDbUpdates st body).staff_id = some s := by
    simp only [serverDbUpdates, hbody, truthyNat, ht', hfind, hcc, hs', if_true]
  have hne : (serverDbUpdates st body).isEmpty = false := by
    simp [DbUpdates.isEmpty, hstaff]
  intro r hr hid
  rw [patchRequest_state st rid body hne] at hr
  obtain ⟨r0, hr0, hreq⟩ := List.mem_map.mp hr
  by_cases h0 : (r0.id == rid) = true
  · rw [if_pos h0] at hreq
    subst hreq
    simp [applyUpdates, hstaff]
  · rw [if_neg h0] at hreq
    subst hreq
    exact absurd (by simp [hid]) h0

/-- Claim C2 (witness): patching request 2 of the fixture with team 4,
whose commander is staff 7, stores `staff_id = 7` on that row. -/
theorem patchRequest_team_sets_staff_witness :
    ({ rowB with status := "assigned", team_id := some 4, staff_id := some 7 } : Row).staff_id = some 7 :=
  patchRequest_team_sets_staff stW 2 bodyT 4 7 ⟨4, some 7⟩ rfl (by decide)
    (by decide) rfl (by decide) _ (by decide) (by decide)

/-- Claim C5: when `serviceTypeId` or the effective `branchId` resolves
to no stored row, the create handler answers 400 and the whole state —
in particular the `requests` table — is unchanged. -/
theorem createRequest_invalid_reference (st : DB) (user : Option AuthUser)
    (body : CreateBody)
    (h : (st.service_types.find? (fun t => some t.id == body.serviceTypeId)).isNone = true ∨
         (st.branches.find? (fun b => some b.id == effBranchId user body)).isNone = true) :
    (createRequest st user body).1.status = 400 ∧
    (createRequest st user body).2 = st := by
  simp only [createRequest]
  split
  next hv => exact ⟨rfl, rfl⟩
  next hv =>
    split
    next hsf => exact ⟨rfl, rfl⟩
    next hsf =>
      split
      next hbf => exact ⟨rfl, rfl⟩
      next hbf =>
        rcases h with h | h
        · exact absurd h hsf
        · exact absurd h hbf

/-- Claim C5 (witness): a body naming the non-existent service type 5. -/
theorem createRequest_invalid_reference_witness :
    (createRequest stW none { bodyW with serviceTypeId := some 5 }).1.status = 400 ∧
    (createRequest stW none { bodyW with serviceTypeId := some 5 }).2 = stW :=
  createRequest_invalid_reference stW none _ (Or.inl (by decide))

/-- Claim C1: an accepted create payload (required fields truthy, service
type and branch resolving, fresh AUTO_INCREMENT id) yields a 201 whose
mapped record carries the input pickup/delivery locations, pickup date
and price, status `pending`, and `myStatus` defaulting to 0 when the
payload does not supply it. -/
theorem createRequest_valid (st : DB) (user : Option AuthUser) (body : CreateBody)
    (hfresh : ∀ r ∈ st.requests, r.id ≠ st.nextId)
    (hbid : truthyNat (effBranchId user body) = true)
    (hbn : truthyStr (effBranchName st user body) = true)
    (hsvc : truthyNat body.serviceTypeId = true)
    (hpl : truthyStr body.pickupLocation = true)
    (hdl : truthyStr body.deliveryLocation = true)
    (hpd : body.pickupDate.isSome = true)
    (hpr : truthyInt body.price = true)
    (hsEx : (st.service_types.find? (fun t => some t.id == body.serviceTypeId)).isNone = false)
    (hbEx : (st.branches.find? (fun b => some b.id == effBranchId user body)).isNone = false) :
    ∃ rec : ApiRecord,
      (createRequest st user body).1 = { status := 201, body := .record rec } ∧
      rec.pickupLocation = body.pickupLocation.getD "" ∧
      rec.deliveryLocation = body.deliveryLocation.getD "" ∧
      rec.pickupDate = body.pickupDate.getD ⟨0, 0, 0⟩ ∧
      rec.price = body.price.getD 0 ∧
      rec.status = "pending" ∧
      rec.myStatus = body.myStatus.getD 0 ∧
      (body.myStatus = none → rec.myStatus = 0) := by
  have hskip : ∀ r ∈ st.requests, (r.id == st.nextId) = false :=
    fun r hr => by simp [hfresh r hr]
  simp only [createRequest]
  split
  next hv => exact absurd hv (by simp [hbid, hbn, hsvc, hpl, hdl, hpd, hpr])
  next hv =>
    split
    next hsf => exact absurd hsf (by simp [hsEx])
    next hsf =>
      split
      next hbf => exact absurd hbf (by simp [hbEx])
      next hbf =>
        rw [find?_append_of_none hskip, List.find?_cons_of_pos _ (by simp)]
        exact ⟨_, rfl, rfl, rfl, rfl, rfl, rfl, rfl, fun hmy => by rw [hmy]; rfl⟩

/-- Claim C1 (witness): the concrete valid body `bodyW` against `stW`. -/
theorem createRequest_valid_witness :
    ∃ rec : ApiRecord,
      (createRequest stW none bodyW).1 = { status := 201, body := .record rec } ∧
      rec.pickupLocation = bodyW.pickupLocation.getD "" ∧
      rec.deliveryLocation = bodyW.deliveryLocation.getD "" ∧
      rec.pickupDate = bodyW.pickupDate.getD ⟨0, 0, 0⟩ ∧
      rec.price = bodyW.price.getD 0 ∧
      rec.status = "pending" ∧
      rec.myStatus = bodyW.myStatus.getD 0 ∧
      (bodyW.myStatus = none → rec.myStatus = 0) :=
  createRequest_valid stW none bodyW (by decide) (by decide) (by decide)
    (by decide) (by decide) (by decide) (by decide) (by decide) (by decide)
    (by decide)

/-- Claim C7: the `my_status` filter of the list route is governed by
presence, not truthiness — with `myStatus=0` supplied every returned
record has `myStatus = 0`, and with the parameter omitted the WHERE
clause is exactly the remaining three filters. -/
theorem listRequests_myStatus (st : DB) (q : ListQuery) :
    (q.myStatus = some 0 → ∀ rec ∈ listRequests st q, rec.myStatus = 0) ∧
    (q.myStatus = none → ∀ r : Row, matchesFilters q r =
      (statusMatch q r && (branchMatch q r && dateMatch q r))) := by
  constructor
  · intro h0 rec hrec
    simp only [listRequests] at hrec
    obtain ⟨r, hr, rfl⟩ := List.mem_map.mp hrec
    have hr' : r ∈ (st.requests.map (joinNames st)).filter (matchesFilters q) :=
      (List.mem_insertionSort _).mp hr
    have hmatch := (List.mem_filter.mp hr').2
    simp only [matchesFilters, Bool.and_eq_true] at hmatch
    have hms : r.my_status = 0 := by
      simpa [myStatusMatch, h0] using hmatch.2.1
    exact hms
  · intro hn r
    simp [matchesFilters, myStatusMatch, hn]

/-- Claim C7 (witness): a concrete filtered read and a concrete omitted
filter. -/
theorem listRequests_myStatus_witness :
    (mapRequestFields (joinNames stZ rowZ)).myStatus = 0 ∧
    matchesFilters ⟨none, none, none, none⟩ rowA =
      (statusMatch ⟨none, none, none, none⟩ rowA &&
        (branchMatch ⟨none, none, none, none⟩ rowA &&
          dateMatch ⟨none, none, none, none⟩ rowA)) :=
  ⟨(listRequests_myStatus stZ ⟨none, some 0, none, none⟩).1 rfl _ (by decide),
    (listRequests_myStatus stW ⟨none, none, none, none⟩).2 rfl rowA⟩

/-- Claim C3: for a non-admin caller carrying a branch id, the serverless
summaries route ignores the `branchId` query parameter (any two values
give identical output) and every row entering the aggregation belongs to
the caller's own branch. -/
theorem apiSummaries_nonadmin_scope (st : DB) (cutoff : YMD) (u : AuthUser)
    (q : SummariesQuery) (b : Nat)
    (hrole : u.role ≠ "admin") (hb : u.branchId = some b) (hb0 : b ≠ 0) :
    (∀ b1 b2 : Option Nat,
      apiRunsSummaries st cutoff u { q with branchId := b1 } =
        apiRunsSummaries st cutoff u { q with branchId := b2 }) ∧
    (∀ r : Row, apiSumMatch st cutoff u q r = true → r.branch_id = b) := by
  have hadmin : (u.role == "admin") = false := by simp [hrole]
  constructor
  · intro b1 b2
    have hmatch : ∀ x : Option Nat, ∀ r : Row,
        apiSumMatch st cutoff u { q with branchId := x } r =
          apiSumMatch st cutoff u { q with branchId := none } r := by
      intro x r
      simp [apiSumMatch, hadmin]
    unfold apiRunsSummaries
    rw [List.filter_congr (fun r _ => (hmatch b1 r).trans (hmatch b2 r).symm)]
  · intro r hm
    have hcond : (u.role != "admin") = true ∧ truthyNat u.branchId = true :=
      ⟨by simp [bne, hadmin], by simp [hb, truthyNat, hb0]⟩
    simp only [apiSumMatch, Bool.and_eq_true] at hm
    obtain ⟨⟨⟨⟨⟨_, hbr⟩, _⟩, _⟩, _⟩, _⟩ := hm
    rw [if_pos hcond] at hbr
    simpa [hb] using hbr

/-- Claim C3 (witness): branch 1's principal gets the same summaries
whether or not it asks for branch 9, and the fixture rows it aggregates
are its own. -/
theorem apiSummaries_nonadmin_scope_witness :
    (apiRunsSummaries stW ⟨2024, 12, 31⟩ uW
        { year := none, month := none, clientId := none, branchId := some 9 } =
      apiRunsSummaries stW ⟨2024, 12, 31⟩ uW
        { year := none, month := none, clientId := none, branchId := none }) ∧
    rowA.branch_id = 1 :=
  ⟨(apiSummaries_nonadmin_scope stW ⟨2024, 12, 31⟩ uW
      ⟨none, none, none, none⟩ 1 (by decide) rfl (by decide)).1 (some 9) none,
    (apiSummaries_nonadmin_scope stW ⟨2024, 12, 31⟩ uW
      ⟨none, none, none, none⟩ 1 (by decide) rfl (by decide)).2 rowA (by decide)⟩

/-- Appending one more row of day `d` to the matching set bumps day `d`'s
aggregate entry by that row. -/
theorem specEntry_append_match (d : YMD) (rows : List Row) (r : Row)
    (h : r.pickup_date = d) :
    specEntry d (rows ++ [r]) = bumpEntry r (specEntry d rows) := by
  by_cases hc : r.status = "completed" <;>
    simp [specEntry, bumpEntry, dayRows, List.filter_append, h, hc,
      List.sum_append, List.filter_singleton]

/-- Appending a row of a different day leaves day `d`'s aggregate entry
unchanged. -/
theorem specEntry_append_other (d : YMD) (rows : List Row) (r : Row)
    (h : r.pickup_date ≠ d) :
    specEntry d (rows ++ [r]) = specEntry d rows := by
  simp [specEntry, dayRows, List.filter_append, h]

/-- The entry opened by the first row of a day is that day's aggregate
over the rows seen so far. -/
theorem initEntry_spec (base : List Row) (r : Row)
    (h : dayRows r.pickup_date base = []) :
    initEntry r = specEntry r.pickup_date (base ++ [r]) := by
  unfold dayRows at h
  by_cases hc : r.status = "completed" <;>
    simp [initEntry, specEntry, dayRows, List.filter_append, h, hc,
      List.filter_singleton]

/-- Streaming one row into an aggregation table whose entries are correct
for the rows seen so far yields a table correct for one more row. -/
theorem insertAgg_entries (base : List Row) (r : Row) :
    ∀ acc : List SummaryRow,
      (∀ e ∈ acc, e = specEntry e.date base) →
      ((acc.map (fun e => e.date)).Nodup) →
      (r.pickup_date ∉ acc.map (fun e => e.date) → dayRows r.pickup_date base = []) →
      ∀ e ∈ insertAgg acc r, e = specEntry e.date (base ++ [r]) := by
  intro acc
  induction acc with
  | nil =>
    intro _ _ hnew e he
    simp only [insertAgg, List.mem_singleton] at he
    subst he
    exact initEntry_spec base r (hnew (by simp))
  | cons a acc ih =>
    intro hall hnd hnew e he
    by_cases hd : (a.date == r.pickup_date) = true
    · have hda : a.date = r.pickup_date := by simpa using hd
      rw [insertAgg, if_pos hd] at he
      rcases List.mem_cons.mp he with he | he
      · subst he
        have ha := hall a (List.mem_cons_self a acc)
        calc bumpEntry r a = bumpEntry r (specEntry a.date base) := by rw [← ha]
          _ = specEntry a.date (base ++ [r]) :=
              (specEntry_append_match a.date base r hda.symm).symm
          _ = specEntry (bumpEntry r a).date (base ++ [r]) := rfl
      · have hea := hall e (List.mem_cons_of_mem a he)
        have hne : e.date ≠ r.pickup_date := by
          intro hcontra
          have hnin : a.date ∉ acc.map (fun e => e.date) := (List.nodup_cons.mp hnd).1
          exact hnin (by
            rw [hda, ← hcontra]
            exact List.mem_map.mpr ⟨e, he, rfl⟩)
        rw [specEntry_append_other e.date base r (fun hc => hne hc.symm)]
        exact hea
    · rw [insertAgg, if_neg hd] at he
      have hne : a.date ≠ r.pickup_date := by simpa using hd
      rcases List.mem_cons.mp he with he | he
      · rw [he, specEntry_append_other a.date base r (fun hc => hne hc.symm)]
        exact hall a (List.mem_cons_self a acc)
      · exact ih (fun x hx => hall x (List.mem_cons_of_mem a hx))
          ((List.nodup_cons.mp hnd).2)
          (fun hni => hnew (by
            intro hmem
            rcases List.mem_cons.mp hmem with h | h
            · exact hne h.symm
            · exact hni h)) e he

/-- Streaming a row preserves the table's day column, appending the
row's day exactly when it is new. -/
theorem insertAgg_map_date (r : Row) :
    ∀ acc : List SummaryRow,
      (insertAgg acc r).map (fun e => e.date) =
        if r.pickup_date ∈ acc.map (fun e => e.date) then acc.map (fun e => e.date)
        else acc.map (fun e => e.date) ++ [r.pickup_date] := by
  intro acc
  induction acc with
  | nil => simp [insertAgg, initEntry]
  | cons a acc ih =>
    by_cases hd : (a.date == r.pickup_date) = true
    · have hda : a.date = r.pickup_date := by simpa using hd
      simp [insertAgg, hd, bumpEntry, hda]
    · have hne : a.date ≠ r.pickup_date := by simpa using hd
      have hne' : r.pickup_date ≠ a.date := fun hc => hne hc.symm
      simp only [insertAgg, hd, Bool.false_eq_true, if_false, List.map_cons, ih]
      by_cases hc : r.pickup_date ∈ acc.map (fun e => e.date)
      · simp [hc, hne']
      · simp [hc, hne']


/-- A day has matching rows exactly when some matching row falls on it. -/
theorem dayRows_ne_nil (d : YMD) (l : List Row) :
    dayRows d l ≠ [] ↔ ∃ r ∈ l, r.pickup_date = d := by
  constructor
  · intro h
    obtain ⟨x, hx⟩ := List.exists_mem_of_ne_nil _ h
    obtain ⟨hxl, hxd⟩ := List.mem_filter.mp hx
    exact ⟨x, hxl, by simpa using hxd⟩
  · rintro ⟨r, hr, hd⟩ hnil
    have hmem : r ∈ dayRows d l := List.mem_filter.mpr ⟨hr, by simp [hd]⟩
    rw [hnil] at hmem
    exact absurd hmem (List.not_mem_nil r)

/-- Invariant of the GROUP BY fold: starting from a table that is correct
for `base`, folding `rows` yields a table that is correct for
`base ++ rows` - entries hold the per-day COUNT/SUM aggregates, days are
not duplicated, and exactly the represented days have matching rows. -/
theorem groupFold_spec :
    ∀ (rows : List Row) (acc : List SummaryRow) (base : List Row),
      (∀ e ∈ acc, e = specEntry e.date base) →
      ((acc.map (fun e => e.date)).Nodup) →
      (∀ d, d ∈ acc.map (fun e => e.date) ↔ dayRows d base ≠ []) →
      (∀ e ∈ rows.foldl insertAgg acc, e = specEntry e.date (base ++ rows)) ∧
      ((rows.foldl insertAgg acc).map (fun e => e.date)).Nodup ∧
      (∀ d, d ∈ (rows.foldl insertAgg acc).map (fun e => e.date) ↔
        dayRows d (base ++ rows) ≠ []) := by
  intro rows
  induction rows with
  | nil =>
    intro acc base h1 h2 h3
    rw [List.foldl_nil, List.append_nil]
    exact ⟨h1, h2, h3⟩
  | cons r rs ih =>
    intro acc base h1 h2 h3
    have hnew : r.pickup_date ∉ acc.map (fun e => e.date) →
        dayRows r.pickup_date base = [] := by
      intro hni
      by_contra hne'
      exact hni ((h3 _).mpr hne')
    have h1' := insertAgg_entries base r acc h1 h2 hnew
    have hmd := insertAgg_map_date r acc
    have h2' : ((insertAgg acc r).map (fun e => e.date)).Nodup := by
      rw [hmd]
      split
      · exact h2
      next hni =>
        exact List.nodup_append.mpr ⟨h2, List.nodup_singleton _,
          by simpa [List.disjoint_singleton] using hni⟩
    have h3' : ∀ d, d ∈ (insertAgg acc r).map (fun e => e.date) ↔
        dayRows d (base ++ [r]) ≠ [] := by
      intro d
      rw [hmd]
      by_cases hdr : d = r.pickup_date
      · have hr : dayRows d (base ++ [r]) ≠ [] := by
          simp [dayRows, List.filter_append, List.filter_singleton, hdr]
        constructor
        · intro _; exact hr
        · intro _
          split
          next hmem => rw [hdr]; exact hmem
          next hmem => simp [hdr]
      · have heq : dayRows d (base ++ [r]) = dayRows d base := by
          simp [dayRows, List.filter_append, List.filter_singleton,
            (show r.pickup_date ≠ d from fun hc => hdr hc.symm)]
        rw [heq, ← h3 d]
        split
        next hmem => exact Iff.rfl
        next hmem => simp [hdr]
    have heq : (base ++ [r]) ++ rs = base ++ r :: rs := by simp
    obtain ⟨g1, g2, g3⟩ := ih (insertAgg acc r) (base ++ [r]) h1' h2' h3'
    rw [heq] at g1 g3
    exact ⟨g1, g2, g3⟩


/-- Claim C4: `GET /api/runs/summaries` groups the matching requests
(`my_status = 3` plus the truthy filters) by the calendar day of
`pickup_date`; each returned entry carries that day's count of matching
requests, count of completed ones (`status = 'completed'`), sum of their
prices and sum of the completed prices; no day repeats, and the listed
days are exactly those with a matching request. -/
theorem runsSummaries_spec (st : DB) (q : SummariesQuery) :
    (∀ e ∈ runsSummaries st q,
      e.totalRuns =
        (dayRows e.date (st.requests.filter (serverSumMatch st q))).length ∧
      e.totalRunsCompleted =
        ((dayRows e.date (st.requests.filter (serverSumMatch st q))).filter
          (fun r => r.status == "completed")).length ∧
      e.totalAmount =
        ((dayRows e.date (st.requests.filter (serverSumMatch st q))).map
          (fun r => r.price)).sum ∧
      e.totalAmountCompleted =
        (((dayRows e.date (st.requests.filter (serverSumMatch st q))).filter
          (fun r => r.status == "completed")).map (fun r => r.price)).sum) ∧
    ((runsSummaries st q).map (fun e => e.date)).Nodup ∧
    (∀ d, (∃ e ∈ runsSummaries st q, e.date = d) ↔
      ∃ r ∈ st.requests.filter (serverSumMatch st q), r.pickup_date = d) := by
  obtain ⟨g1, g2, g3⟩ := groupFold_spec (st.requests.filter (serverSumMatch st q)) [] []
    (fun e he => absurd he (List.not_mem_nil e)) List.nodup_nil
    (by intro d; simp [dayRows])
  rw [List.nil_append] at g1 g3
  have hmem : ∀ e, e ∈ runsSummaries st q ↔
      e ∈ (st.requests.filter (serverSumMatch st q)).foldl insertAgg [] := by
    intro e
    unfold runsSummaries sortByDateDesc groupByDay
    exact List.mem_insertionSort _
  refine ⟨?_, ?_, ?_⟩
  · intro e he
    have hspec := g1 e ((hmem e).mp he)
    refine ⟨?_, ?_, ?_, ?_⟩ <;> (rw [hspec]; rfl)
  · have hp : List.Perm ((runsSummaries st q).map (fun e => e.date))
        (((st.requests.filter (serverSumMatch st q)).foldl insertAgg []).map
          (fun e => e.date)) := by
      unfold runsSummaries sortByDateDesc groupByDay
      exact (List.perm_insertionSort _ _).map _
    exact hp.nodup_iff.mpr g2
  · intro d
    constructor
    · rintro ⟨e, he, rfl⟩
      have hd : e.date ∈ ((st.requests.filter (serverSumMatch st q)).foldl
          insertAgg []).map (fun e => e.date) :=
        List.mem_map.mpr ⟨e, (hmem e).mp he, rfl⟩
      exact (dayRows_ne_nil _ _).mp ((g3 e.date).mp hd)
    · rintro ⟨r, hr, hd⟩
      have hne : dayRows d (st.requests.filter (serverSumMatch st q)) ≠ [] :=
        (dayRows_ne_nil _ _).mpr ⟨r, hr, hd⟩
      obtain ⟨e, he, hed⟩ := List.mem_map.mp ((g3 d).mpr hne)
      exact ⟨e, (hmem e).mpr he, hed⟩

/-- Claim C4 (witness): the fixture day with two runs, one completed,
prices 100 and 200. -/
theorem runsSummaries_spec_witness :
    e1.totalRuns =
      (dayRows e1.date (stW.requests.filter (serverSumMatch stW qW4))).length ∧
    e1.totalRunsCompleted =
      ((dayRows e1.date (stW.requests.filter (serverSumMatch stW qW4))).filter
        (fun r => r.status == "completed")).length ∧
    e1.totalAmount =
      ((dayRows e1.date (stW.requests.filter (serverSumMatch stW qW4))).map
        (fun r => r.price)).sum ∧
    e1.totalAmountCompleted =
      (((dayRows e1.date (stW.requests.filter (serverSumMatch stW qW4))).filter
        (fun r => r.status == "completed")).map (fun r => r.price)).sum :=
  (runsSummaries_spec stW qW4).1 e1 (by decide)

end BmServer
